import Mathlib

/-!
Shallow embedding of the streaming chat pipeline of the bedrock_be_ai
repository: the two SSE streaming generators and the cancellation handler of
src/app/utils/chat.py and src/app/routes/v0/chat.py, and the application
state attached at process start in src/main.py.

Modelling conventions:
- a generation chunk is the Dict produced by the backend; the pipeline reads
  it only through chunk.get(ResponseKey.CONTENT, "") and
  chunk.get(ResponseKey.DONE, False), so the model keeps those two fields as
  optional values plus an opaque optional metadata payload;
- the SSE encoder is external and pure (spec section 1), so frames are kept
  symbolic: a data frame produced by SSEConverter.str_to_sse and a named
  event produced by SSEConverter.event_to_sse;
- the cancellation registry is a finite set of strings; because another
  request may add to it between chunk pulls, the generators receive the
  registry snapshot seen at each per-chunk checkpoint as a function of the
  pull index, and separately the registry content at the moment the finally
  clause runs;
- a source is a finite list of chunks followed optionally by an exception
  from the async iterator; generator outcomes distinguish normal completion,
  a cancellation break, a propagated source exception, and the Python error
  raised when the post-loop code reads a never-bound loop variable.
-/

namespace BedrockBE

/-- One generation chunk as consumed by the pipeline: the fields reached via
chunk.get in src/app/utils/chat.py, with absent keys as none. -/
structure Chunk where
  content : Option String
  done : Option Bool
  metadata : Option String
  deriving DecidableEq

/-- chunk.get(ResponseKey.CONTENT, "") -/
def Chunk.getContent (c : Chunk) : String := c.content.getD ""

/-- chunk.get(ResponseKey.DONE, False) -/
def Chunk.getDone (c : Chunk) : Bool := c.done.getD false

/-- An SSE wire frame as produced by the external encoder: a plain data line
(SSEConverter.str_to_sse) or a named event with a chunk payload
(SSEConverter.event_to_sse). -/
inductive SSEFrame where
  | data (txt : String)
  | event (name : String) (payload : Chunk)
  deriving DecidableEq

/-- The text payload of a plain data frame; a named event is not a content
frame and carries no content payload. -/
def frameContent : SSEFrame → String
  | SSEFrame.data txt => txt
  | SSEFrame.event _ _ => ""

/-- The chunk source (raw_resp): a finite list of yielded chunks; raises
records whether the async iteration raises an exception after yielding
them. -/
structure Source where
  chunks : List Chunk
  raises : Bool

/-- Python truthiness of the request_id argument: None and the empty string
are falsy. -/
def truthyId : Option String → Bool
  | none => false
  | some s => !(s == "")

/-- The guard of the cancellation check and of the finally clause in both
generators: the Python condition (request and request_id). -/
def guardOn (hasRequest : Bool) (requestId : Option String) : Bool :=
  hasRequest && truthyId requestId

/-- The membership test (request_id in request.app.state.stop_signal) made at
the checkpoint reached after the i-th pull, against the registry snapshot at
that moment. -/
def stopHit (requestId : Option String) (regAt : Nat → Finset String)
    (i : Nat) : Bool :=
  decide (requestId.getD "" ∈ regAt i)

/-- How a generator run ended. nameError models the Python error raised when
the post-loop code reads the loop variable although it was never bound. -/
inductive Outcome where
  | completed
  | cancelled
  | sourceError
  | nameError
  deriving DecidableEq

/-- Observable result of one generator run: the yielded frames in order, how
the run ended, and the registry content after the finally clause ran. -/
structure RunResult where
  frames : List SSEFrame
  outcome : Outcome
  registry : Finset String

/-- The async-for loop of ChatResponse._generator_only_txt
(src/app/utils/chat.py lines 171-179): each pulled chunk is bound, then the
cancellation guard is checked; a hit breaks out of the loop without emitting
the bound chunk; otherwise an SSE data line wrapping the chunk content is
yielded and the loop continues with the next pull index. Returns the yielded
frames and whether the loop exited via break. -/
def only_txt_loop (hasRequest : Bool) (requestId : Option String)
    (regAt : Nat → Finset String) : List Chunk → Nat → List SSEFrame × Bool
  | [], _ => ([], false)
  | c :: rest, i =>
    if guardOn hasRequest requestId && stopHit requestId regAt i then
      ([], true)
    else
      let r := only_txt_loop hasRequest requestId regAt rest (i + 1)
      (SSEFrame.data c.getContent :: r.1, r.2)

/-- ChatResponse._generator_only_txt (src/app/utils/chat.py lines 170-183):
the try body runs the loop; if the loop broke the source is not pulled again,
otherwise a raising source propagates its exception after all frames were
yielded; the finally clause then discards request_id from the registry when
(request and request_id) holds. regEnd is the registry content at the moment
the finally clause runs. -/
def generator_only_txt (src : Source) (hasRequest : Bool)
    (requestId : Option String) (regAt : Nat → Finset String)
    (regEnd : Finset String) : RunResult :=
  let r := only_txt_loop hasRequest requestId regAt src.chunks 0
  let outcome :=
    if r.2 then Outcome.cancelled
    else if src.raises then Outcome.sourceError
    else Outcome.completed
  let reg :=
    if guardOn hasRequest requestId then regEnd.erase (requestId.getD "")
    else regEnd
  ⟨r.1, outcome, reg⟩

/-- The async-for loop of ChatResponse._generator_with_metadata_tail
(src/app/utils/chat.py lines 226-230): the loop body holds only the
cancellation check — the emission code sits after the loop in the source —
so nothing is yielded inside the loop; it tracks the last chunk bound to the
loop variable and whether the loop exited via break. -/
def metadata_tail_loop (hasRequest : Bool) (requestId : Option String)
    (regAt : Nat → Finset String) :
    List Chunk → Nat → Option Chunk → Option Chunk × Bool
  | [], _, last => (last, false)
  | c :: rest, i, _ =>
    if guardOn hasRequest requestId && stopHit requestId regAt i then
      (some c, true)
    else
      metadata_tail_loop hasRequest requestId regAt rest (i + 1) (some c)

/-- ChatResponse._generator_with_metadata_tail (src/app/utils/chat.py lines
225-242): after the loop, the code reads the loop variable once — if it was
never bound (empty source) Python raises (nameError); if the source raised,
the exception propagates at the pull and the post-loop code is skipped;
otherwise one single frame is yielded: a done event carrying the last bound
chunk when its done flag is set, else a data line wrapping its content. The
finally clause discards request_id exactly as in generator_only_txt. -/
def generator_with_metadata_tail (src : Source) (hasRequest : Bool)
    (requestId : Option String) (regAt : Nat → Finset String)
    (regEnd : Finset String) : RunResult :=
  let r := metadata_tail_loop hasRequest requestId regAt src.chunks 0 none
  let fo : List SSEFrame × Outcome :=
    if !r.2 && src.raises then
      ([], Outcome.sourceError)
    else
      match r.1 with
      | none => ([], Outcome.nameError)
      | some c =>
        if c.getDone then
          ([SSEFrame.event "done" c],
            if r.2 then Outcome.cancelled else Outcome.completed)
        else
          ([SSEFrame.data c.getContent],
            if r.2 then Outcome.cancelled else Outcome.completed)
  let reg :=
    if guardOn hasRequest requestId then regEnd.erase (requestId.getD "")
    else regEnd
  ⟨fo.1, fo.2, reg⟩

/-- The stop_generation handler (src/app/routes/v0/chat.py lines 182-200):
if req.request_id is truthy, add it to the stop-signal set; unconditionally
return the ok acknowledgement. The registry is threaded as explicit state;
the returned Bool is the ok field of the response body. -/
def stop_generation (requestId : Option String) (reg : Finset String) :
    Finset String × Bool :=
  (if truthyId requestId then insert (requestId.getD "") reg else reg, true)

/-- A value attachable to an attribute of app.state. -/
inductive AppStateVal where
  | botVal
  | stopSignalVal (reg : Finset String)

/-- The attributes attached to app.state at process start in src/main.py
(lines 25-28): only bot is attached; no stop_signal attribute is ever
created there or anywhere else in the repository. -/
def mainAppState : List (String × AppStateVal) := [("bot", AppStateVal.botVal)]

/-- Attribute lookup on the app.state object; none models the AttributeError
raised by the state object on a missing attribute. -/
def stateGetAttr (st : List (String × AppStateVal)) (name : String) :
    Option AppStateVal :=
  (st.find? (fun p => p.1 == name)).map (fun p => p.2)

/-- Non-terminal chunk carrying the fragment Hel. -/
def chunkHel : Chunk := ⟨some "Hel", some false, none⟩

/-- Non-terminal chunk carrying the fragment lo. -/
def chunkLo : Chunk := ⟨some "lo", some false, none⟩

/-- Terminal chunk with empty content, done flag set, and metadata M. -/
def chunkDoneM : Chunk := ⟨some "", some true, some "M"⟩

/-- The spec scenario source: Hel, lo, then the terminal chunk; the iteration
ends normally. -/
def srcHello : Source := ⟨[chunkHel, chunkLo, chunkDoneM], false⟩

/-- A source that yields no chunk and ends normally. -/
def emptySource : Source := ⟨[], false⟩

/-- Registry schedule that is empty at every checkpoint. -/
def emptyRegAt : Nat → Finset String := fun _ => ∅

/-- Registry schedule where the identifier r1 is flagged from the second
checkpoint on: a cancel request that lands after the first chunk was
pulled. -/
def regAtAfterFirst : Nat → Finset String := fun i => if i = 0 then ∅ else {"r1"}

/-- Helper: with a falsy guard the content-only loop never breaks and emits a
data line per chunk, independently of the registry schedule. -/
theorem only_txt_loop_guard_false (hasRequest : Bool) (requestId : Option String)
    (regAt : Nat → Finset String) (hg : guardOn hasRequest requestId = false) :
    ∀ (l : List Chunk) (i : Nat),
      only_txt_loop hasRequest requestId regAt l i =
        (l.map (fun c => SSEFrame.data c.getContent), false) := by
  intro l
  induction l with
  | nil => intro i; simp [only_txt_loop]
  | cons c rest ih =>
    intro i
    simp [only_txt_loop, hg, ih (i + 1)]

/-- Helper: with a falsy guard the metadata-tail loop never breaks and its
result does not depend on the registry schedule or the pull index. -/
theorem metadata_tail_loop_guard_false (hasRequest : Bool)
    (requestId : Option String) (regAt regAt2 : Nat → Finset String)
    (hg : guardOn hasRequest requestId = false) :
    ∀ (l : List Chunk) (i j : Nat) (last : Option Chunk),
      metadata_tail_loop hasRequest requestId regAt l i last =
        metadata_tail_loop hasRequest requestId regAt2 l j last := by
  intro l
  induction l with
  | nil => intro i j last; rfl
  | cons c rest ih =>
    intro i j last
    simp [metadata_tail_loop, hg, ih (i + 1) (j + 1)]

/-- C9: a stream started with request_id None never reads or mutates the
cancellation registry — both projections produce an identical run for any two
registry schedules, and leave the finally-time registry untouched. -/
theorem no_request_id_registry_independent (src : Source) (hasRequest : Bool)
    (regAt regAt2 : Nat → Finset String) (regEnd : Finset String) :
    generator_only_txt src hasRequest none regAt regEnd =
      generator_only_txt src hasRequest none regAt2 regEnd ∧
    (generator_only_txt src hasRequest none regAt regEnd).registry = regEnd ∧
    generator_with_metadata_tail src hasRequest none regAt regEnd =
      generator_with_metadata_tail src hasRequest none regAt2 regEnd ∧
    (generator_with_metadata_tail src hasRequest none regAt regEnd).registry =
      regEnd := by
  have hg : guardOn hasRequest none = false := by
    simp [guardOn, truthyId]
  refine ⟨?_, ?_, ?_, ?_⟩
  · simp [generator_only_txt, hg,
      only_txt_loop_guard_false hasRequest none regAt hg,
      only_txt_loop_guard_false hasRequest none regAt2 hg]
  · simp [generator_only_txt, hg]
  · simp [generator_with_metadata_tail, hg,
      metadata_tail_loop_guard_false hasRequest none regAt regAt2 hg
        src.chunks 0 0 none]
  · simp [generator_with_metadata_tail, hg]

/-- C2: for a stream started with a Request object and a non-empty request
identifier, whatever the source, the schedule and the exit path, the finally
clause discards the identifier exactly once from the finally-time registry,
so the identifier is absent afterwards — in both projections. -/
theorem cleanup_invariant (src : Source) (id : String)
    (regAt : Nat → Finset String) (regEnd : Finset String) (h : id ≠ "") :
    (generator_only_txt src true (some id) regAt regEnd).registry =
      regEnd.erase id ∧
    id ∉ (generator_only_txt src true (some id) regAt regEnd).registry ∧
    (generator_with_metadata_tail src true (some id) regAt regEnd).registry =
      regEnd.erase id ∧
    id ∉ (generator_with_metadata_tail src true (some id) regAt regEnd).registry := by
  have hg : guardOn true (some id) = true := by
    simp [guardOn, truthyId, h]
  refine ⟨?_, ?_, ?_, ?_⟩ <;>
    simp [generator_only_txt, generator_with_metadata_tail, hg,
      Finset.not_mem_erase]

/-- Witness for C2 at a concrete stream. -/
theorem cleanup_invariant_witness :
    ("r1" : String) ≠ "" ∧
    ((generator_only_txt srcHello true (some "r1") emptyRegAt {"r1"}).registry =
        ({"r1"} : Finset String).erase "r1" ∧
      "r1" ∉ (generator_only_txt srcHello true (some "r1") emptyRegAt
        {"r1"}).registry ∧
      (generator_with_metadata_tail srcHello true (some "r1") emptyRegAt
          {"r1"}).registry = ({"r1"} : Finset String).erase "r1" ∧
      "r1" ∉ (generator_with_metadata_tail srcHello true (some "r1") emptyRegAt
        {"r1"}).registry) :=
  ⟨by decide, cleanup_invariant srcHello "r1" emptyRegAt {"r1"} (by decide)⟩

/-- C10: in the metadata-tail projection on a source producing zero chunks,
the post-loop emission reads the never-bound loop variable and raises, no
frame is emitted, and the finally clause still removes the supplied request
identifier from the registry. -/
theorem metadata_tail_empty_source (id : String) (regAt : Nat → Finset String)
    (regEnd : Finset String) (h : id ≠ "") :
    (generator_with_metadata_tail emptySource true (some id) regAt
      regEnd).frames = [] ∧
    (generator_with_metadata_tail emptySource true (some id) regAt
      regEnd).outcome = Outcome.nameError ∧
    (generator_with_metadata_tail emptySource true (some id) regAt
      regEnd).registry = regEnd.erase id := by
  have hg : guardOn true (some id) = true := by
    simp [guardOn, truthyId, h]
  refine ⟨?_, ?_, ?_⟩ <;>
    simp [generator_with_metadata_tail, metadata_tail_loop, emptySource, hg]

/-- Witness for C10 at a concrete identifier and registry. -/
theorem metadata_tail_empty_source_witness :
    ("r1" : String) ≠ "" ∧
    ((generator_with_metadata_tail emptySource true (some "r1") emptyRegAt
        {"r1"}).frames = [] ∧
      (generator_with_metadata_tail emptySource true (some "r1") emptyRegAt
        {"r1"}).outcome = Outcome.nameError ∧
      (generator_with_metadata_tail emptySource true (some "r1") emptyRegAt
        {"r1"}).registry = ({"r1"} : Finset String).erase "r1") :=
  ⟨by decide, metadata_tail_empty_source "r1" emptyRegAt {"r1"} (by decide)⟩

/-- Helper: with a truthy guard, if the first registry hit among the
checkpoints of the loop started at pull index k happens at relative position
n inside the list, the loop emits exactly the data lines of the first n
chunks and exits via break. -/
theorem only_txt_loop_first_hit (hasRequest : Bool) (requestId : Option String)
    (regAt : Nat → Finset String) (hg : guardOn hasRequest requestId = true) :
    ∀ (l : List Chunk) (k n : Nat), n < l.length →
      stopHit requestId regAt (k + n) = true →
      (∀ m, m < n → stopHit requestId regAt (k + m) = false) →
      only_txt_loop hasRequest requestId regAt l k =
        ((l.take n).map (fun c => SSEFrame.data c.getContent), true) := by
  intro l
  induction l with
  | nil =>
    intro k n hn _ _
    simp at hn
  | cons c rest ih =>
    intro k n hn hhit hbefore
    cases n with
    | zero =>
      have h0 : stopHit requestId regAt k = true := by simpa using hhit
      simp [only_txt_loop, hg, h0]
    | succ n =>
      have h0 : stopHit requestId regAt k = false := by
        simpa using hbefore 0 (Nat.succ_pos n)
      have hn2 : n < rest.length := by simpa using Nat.lt_of_succ_lt_succ hn
      have hhit2 : stopHit requestId regAt (k + 1 + n) = true := by
        have e : k + 1 + n = k + (n + 1) := by omega
        rw [e]; exact hhit
      have hbefore2 : ∀ m, m < n → stopHit requestId regAt (k + 1 + m) = false := by
        intro m hm
        have e : k + 1 + m = k + (m + 1) := by omega
        rw [e]; exact hbefore (m + 1) (Nat.succ_lt_succ hm)
      simp [only_txt_loop, hg, h0, ih (k + 1) n hn2 hhit2 hbefore2]

/-- C5: in the content-only projection with a registered non-empty
identifier, if the identifier is first present in the registry at the
checkpoint of pull index n (before the source is exhausted), then exactly the
n earlier chunks were emitted — the current chunk and all later ones are not
— and the run ends as a cancellation break, not as an exception, whatever the
source would have done afterwards. -/
theorem cancellation_effect (src : Source) (id : String)
    (regAt : Nat → Finset String) (regEnd : Finset String) (n : Nat)
    (hid : id ≠ "") (hn : n < src.chunks.length) (hhit : id ∈ regAt n)
    (hbefore : ∀ m, m < n → id ∉ regAt m) :
    (generator_only_txt src true (some id) regAt regEnd).frames =
      (src.chunks.take n).map (fun c => SSEFrame.data c.getContent) ∧
    (generator_only_txt src true (some id) regAt regEnd).outcome =
      Outcome.cancelled := by
  have hg : guardOn true (some id) = true := by
    simp [guardOn, truthyId, hid]
  have hhit2 : stopHit (some id) regAt (0 + n) = true := by
    simp [stopHit, hhit]
  have hbefore2 : ∀ m, m < n → stopHit (some id) regAt (0 + m) = false := by
    intro m hm
    simp [stopHit, hbefore m hm]
  have hloop := only_txt_loop_first_hit true (some id) regAt hg src.chunks
    0 n hn hhit2 hbefore2
  constructor <;> simp [generator_only_txt, hloop]

/-- Witness for C5: the spec scenario where the cancel for r1 lands after the
first chunk was emitted — exactly one content frame comes out and the run
ends by the cancellation break. -/
theorem cancellation_effect_witness :
    (("r1" : String) ≠ "" ∧ 1 < srcHello.chunks.length ∧
      "r1" ∈ regAtAfterFirst 1 ∧ (∀ m, m < 1 → "r1" ∉ regAtAfterFirst m)) ∧
    ((generator_only_txt srcHello true (some "r1") regAtAfterFirst ∅).frames =
      (srcHello.chunks.take 1).map (fun c => SSEFrame.data c.getContent) ∧
     (generator_only_txt srcHello true (some "r1") regAtAfterFirst ∅).outcome =
      Outcome.cancelled) :=
  ⟨⟨by decide, by decide, by decide, by decide⟩,
    cancellation_effect srcHello "r1" regAtAfterFirst ∅ 1 (by decide)
      (by decide) (by decide) (by decide)⟩

/-- C8: the stop handler always answers ok for any body; repeating it with
the same identifier is idempotent on the registry (membership stays a single
entry), and every other identifier keeps exactly its previous membership. -/
theorem stop_generation_ok (requestId : Option String) (reg : Finset String) :
    (stop_generation requestId reg).2 = true ∧
    (stop_generation requestId (stop_generation requestId reg).1).1 =
      (stop_generation requestId reg).1 ∧
    ∀ x : String, x ≠ requestId.getD "" →
      (x ∈ (stop_generation requestId reg).1 ↔ x ∈ reg) := by
  refine ⟨rfl, ?_, ?_⟩
  · by_cases h : truthyId requestId = true
    · simp [stop_generation, h, Finset.insert_idem]
    · simp [stop_generation, h]
  · intro x hx
    by_cases h : truthyId requestId = true
    · simp [stop_generation, h, Finset.mem_insert, hx]
    · simp [stop_generation, h]

/-- Witness for C8: cancelling r1 returns ok, doubling it changes nothing,
and the membership of r2 is untouched. -/
theorem stop_generation_ok_witness :
    (stop_generation (some "r1") {"r2"}).2 = true ∧
    ("r2" : String) ≠ ((some "r1" : Option String).getD "") ∧
    ("r2" ∈ (stop_generation (some "r1") {"r2"}).1 ↔
      "r2" ∈ ({"r2"} : Finset String)) :=
  ⟨(stop_generation_ok (some "r1") {"r2"}).1, by decide,
    (stop_generation_ok (some "r1") {"r2"}).2.2 "r2" (by decide)⟩

/-- C1 (code evaluation): on the Hel, lo, terminal source with an empty
registry, the metadata-tail generator emits exactly one frame — the done
event — because the yields sit after the async-for loop in the source, so the
non-terminal chunks are never emitted as data lines. -/
theorem metadata_tail_drops_content_frames :
    (generator_with_metadata_tail srcHello true (some "r1") emptyRegAt
      ∅).frames = [SSEFrame.event "done" chunkDoneM] := by decide

/-- C3 (code evaluation): with the cancel for r1 landing at the second
checkpoint, before the terminal chunk, the metadata-tail generator still
emits a data frame built from the stale loop chunk after the break. -/
theorem metadata_tail_emits_stale_chunk :
    (generator_with_metadata_tail srcHello true (some "r1") regAtAfterFirst
      ∅).frames = [SSEFrame.data "lo"] ∧
    (generator_with_metadata_tail srcHello true (some "r1") regAtAfterFirst
      ∅).outcome = Outcome.cancelled := by decide

/-- C4 (code evaluation): on the never-cancelled Hel, lo, terminal source the
metadata-tail generator emits no content frame at all, so the concatenation
of emitted content payloads is empty while the source contents concatenate to
Hello. -/
theorem metadata_tail_content_lost :
    ((generator_with_metadata_tail srcHello true (some "r1") emptyRegAt
        ∅).frames.map frameContent).foldl (fun a b => a ++ b) "" = "" ∧
    (srcHello.chunks.map Chunk.getContent).foldl (fun a b => a ++ b) "" =
      "Hello" := by decide

/-- C6 (code evaluation): the startup code of src/main.py attaches bot to
app.state but never creates the stop_signal attribute, so the first handler
access to it fails. -/
theorem stop_signal_absent_from_app_state :
    (stateGetAttr mainAppState "stop_signal").isNone = true ∧
    (stateGetAttr mainAppState "bot").isSome = true := by decide

/-- C7 counterexample: the content-only projection of the spec scenario does
not emit exactly the two data frames Hel and lo — the loop also yields a
frame for the terminal chunk. -/
theorem only_txt_scenario_counterexample :
    ¬ ((generator_only_txt srcHello true (some "r1") emptyRegAt ∅).frames =
        [SSEFrame.data "Hel", SSEFrame.data "lo"]) := by decide

/-- C7 amended: the content-only projection of the spec scenario emits
exactly three data frames — Hel, lo, and an empty data frame wrapping the
terminal chunk content — and no terminal event. -/
theorem only_txt_scenario_amended :
    (generator_only_txt srcHello true (some "r1") emptyRegAt ∅).frames =
      [SSEFrame.data "Hel", SSEFrame.data "lo", SSEFrame.data ""] := by decide

end BedrockBE
